import Mathlib

/-!
Verification of the punt-return analytics code (nflutil.py, nfl_bdb22.py,
nflplot.py) against its natural-language specification.

DataFrames are embedded as lists of row structures; each pandas operation of
the source is translated step by step (inner merges as flatMaps that keep one
copy of the left row per matching right row, `.loc`/`.query` as filters,
`.assign` as maps).  Raw CSV columns are embedded as exact rationals, integers
and strings; derived real-valued features built with np.sqrt / np.cos / np.sin
live in the real numbers.  Missing values (NaN) are embedded as Option, with
the pandas semantics that a NaN key never matches in a merge and a comparison
against NaN is false.
-/

/-! ### nflutil.py: constants and transform_tracking_data -/

def FIELD_SIZE_X : ℚ := 120

def FIELD_SIZE_Y : ℚ := 533/10

/-- A row of tracking data as seen by `nflutil.transform_tracking_data`: the
four positional columns it touches, the `playDirection` column it branches on,
and a type parameter standing for all remaining columns of the frame. -/
structure TRow (α : Type) where
  x : ℚ
  y : ℚ
  o : ℚ
  dir : ℚ
  playDirection : String
  rest : α
deriving DecidableEq

/-- Python float modulo for a positive divisor (result in `[0, b)`), used to
embed `(value + 180) % 360`. -/
def pymod (a b : ℚ) : ℚ := a - b * (⌊a / b⌋ : ℤ)

/-- The row transformation of `nflutil.transform_tracking_data`: rows of plays
moving left are reflected in x and y and their orientations rotated by 180
degrees; all other rows are untouched. -/
def transformRow {α : Type} (r : TRow α) : TRow α :=
  if r.playDirection = "left" then
    { r with
      x := FIELD_SIZE_X - r.x,
      y := FIELD_SIZE_Y - r.y,
      o := pymod (r.o + 180) 360,
      dir := pymod (r.dir + 180) 360 }
  else r

/-- `nflutil.transform_tracking_data`.  The pair returned is
(function return value, final state of the `track_df` argument): with
`inplace = False` the function returns the transformed copy and the argument
keeps its rows; with `inplace = True` it returns `None` and the argument's
rows are transformed. -/
def transform_tracking_data {α : Type} (track_df : List (TRow α)) (inplace : Bool) :
    Option (List (TRow α)) × List (TRow α) :=
  if inplace then (none, track_df.map transformRow)
  else (some (track_df.map transformRow), track_df)

/-! ### nfl_bdb22.py: data model -/

/-- A row of the weekly tracking CSV, with the columns used by nfl_bdb22.py.
`nflId` is NaN (`none`) on the football's rows. -/
structure TrackRow where
  gameId : Int
  playId : Int
  frameId : Int
  nflId : Option ℚ
  team : String
  x : ℚ
  y : ℚ
  s : ℚ
  o : ℚ
  dir : ℚ
  event : String
deriving DecidableEq

/-- A row of plays.csv, with the columns used by nfl_bdb22.py.  `returnerId`
is a string column ("id" or "id1;id2;..." for several returners) that can be
NaN (`none`). -/
structure PlayRow where
  gameId : Int
  playId : Int
  specialTeamsPlayType : String
  specialTeamsResult : String
  kickReturnYardage : Option ℚ
  returnerId : Option String
deriving DecidableEq

/-- A row of the PFF scouting data, with the columns used by nfl_bdb22.py. -/
structure PffRow where
  gameId : Int
  playId : Int
  kickContactType : String
deriving DecidableEq

/-- A row of games.csv, with the columns used by nfl_bdb22.py. -/
structure GameRow where
  gameId : Int
  homeTeamAbbr : String
  visitorTeamAbbr : String
deriving DecidableEq

/-- pandas `.astype(str)` on a possibly-NaN string cell: NaN prints as
"nan". -/
def pandasStr : Option String → String
  | none => "nan"
  | some s => s

/-- The filter `~play_df.returnerId.astype(str).str.contains(';')`: the play
has at most one listed returner (NaN stringifies to "nan", which contains no
semicolon, so returnerless plays pass the filter, as in pandas).  Containment
of the one-character pattern is membership in the character list. -/
def singleReturner (p : PlayRow) : Bool := ! (pandasStr p.returnerId).data.contains ';'

/-- `.astype({"returnerId": float})` on the single-returner rows: the decimal
id string becomes its numeric value (the ids in the data are decimal digit
strings); NaN stays NaN (`none`).  (A non-numeric string is embedded as
`none`, i.e. as a merge key that never matches.) -/
def returnerIdFloat (p : PlayRow) : Option ℚ :=
  (p.returnerId).bind (fun str =>
    if str.data ≠ [] ∧ str.data.all Char.isDigit then
      some ((str.data.foldl (fun n c => 10 * n + (c.toNat - 48)) 0 : ℕ) : ℚ)
    else none)

/-- pandas merge-key equality between two possibly-NaN numeric keys: NaN keys
never match anything (NaN != NaN). -/
def floatKeyEq (a b : Option ℚ) : Bool :=
  match a, b with
  | some u, some v => u = v
  | _, _ => false

/-- The (gameId, playId) key of a tracking row. -/
def trkKey (r : TrackRow) : Int × Int := (r.gameId, r.playId)

/-- The distinct (gameId, playId) keys of a tracking DataFrame, in order of
first appearance. -/
def trackKeys (track : List TrackRow) : List (Int × Int) :=
  (track.map trkKey).dedup

/-- Modelled from the spec: `nflutil.get_frame_of_event` is called by
nfl_bdb22.py but missing from the repository's source files.  From its name,
its call sites and the surrounding comments ("Dataframe of: gameId, playId,
punt (frameId), punt_received (frameId)"), it reports, for a play and an event
name, the frameId at which that event occurs in the play's tracking rows
(the first such frame; the event columns of tracking data repeat the same
frameId on every player's row of the event frame), or nothing when the event
does not occur in the play. -/
def eventFirstFrame (track : List TrackRow) (k : Int × Int) (e : String) : Option Int :=
  ((track.filter (fun r => trkKey r = k ∧ r.event = e)).map (fun r => r.frameId)).min?

/-- Modelled from the spec: the composite
`get_frame_of_event(track_df, [e1, e2]).pivot(index=['gameId','playId'],
columns='event', values='frameId').dropna().astype('int64')` used in
`prep_get_modeling_frames`: one row per play in which both events occur,
holding the two event frameIds.  (Plays in which neither event occurs never
appear in `get_frame_of_event`'s output, and plays with exactly one of the two
events get a NaN cell from the pivot and are removed by `dropna`.) -/
def puntWindowTable (track : List TrackRow) (e1 e2 : String) :
    List ((Int × Int) × Int × Int) :=
  (trackKeys track).filterMap (fun k =>
    match eventFirstFrame track k e1, eventFirstFrame track k e2 with
    | some a, some b => some (k, a, b)
    | _, _ => none)

/-- Modelled from the spec: the composite
`get_frame_of_event(track_df, catch_type).pivot(index=['gameId','playId'],
columns='event', values='frameId').astype('int64')` used in
`feat_timeToCatch`: one row per play in which the catch event occurs, holding
the event's frameId. -/
def catchFrameTable (track : List TrackRow) (ct : String) : List ((Int × Int) × Int) :=
  (trackKeys track).filterMap (fun k =>
    (eventFirstFrame track k ct).map (fun f => (k, f)))

/-- An inner merge of tracking rows with a key-only projection of plays.csv on
(gameId, playId): each tracking row is kept once per matching play row. -/
def innerMergeTrackPlay (track : List TrackRow) (plays : List PlayRow) : List TrackRow :=
  track.flatMap (fun t =>
    (plays.filter (fun p => p.gameId = t.gameId ∧ p.playId = t.playId)).map (fun _ => t))

/-- An inner merge of tracking rows with a key-only projection of the PFF data
on (gameId, playId). -/
def innerMergeTrackPff (track : List TrackRow) (pff : List PffRow) : List TrackRow :=
  track.flatMap (fun t =>
    (pff.filter (fun q => q.gameId = t.gameId ∧ q.playId = t.playId)).map (fun _ => t))

/-- The merge/filter pipeline of `prep_get_modeling_frames` after the argument
check: (1) inner-merge with the plays passing the play-type filter, (2)
inner-merge with the single-returner plays, (3) inner-merge with the PFF rows
with a clean catch, (4) left-merge with the punt/end-event frame table and
keep the frames between the two events (a play absent from the table gets NaN
bounds, and a NaN comparison is false, so its rows are dropped), then drop the
helper columns. -/
def prepFrames (track : List TrackRow) (play : List PlayRow) (pff : List PffRow)
    (playFilter : PlayRow → Bool) (endName : String) : List TrackRow :=
  let s1 := innerMergeTrackPlay track (play.filter playFilter)
  let s2 := innerMergeTrackPlay s1 (play.filter (fun p => singleReturner p))
  let s3 := innerMergeTrackPff s2 (pff.filter (fun q => q.kickContactType = "CC"))
  let evt := puntWindowTable track "punt" endName
  let s4 := s3.map (fun t =>
    (t, (evt.find? (fun e => e.1.1 = t.gameId ∧ e.1.2 = t.playId)).map Prod.snd))
  let s5 := s4.filter (fun te =>
    match te.2 with
    | some fr => fr.1 ≤ te.1.frameId ∧ te.1.frameId ≤ fr.2
    | none => false)
  s5.map Prod.fst

/-- `nfl_bdb22.prep_get_modeling_frames`: checks `play_end_event_name` first
(raising ValueError otherwise, embedded as `Except.error`), chooses the play
filter for the play type, and runs the merge/filter pipeline. -/
def prep_get_modeling_frames (track : List TrackRow) (play : List PlayRow)
    (pff : List PffRow) (play_end_event_name : String) : Except String (List TrackRow) :=
  if play_end_event_name = "punt_received" then
    .ok (prepFrames track play pff
      (fun p => p.specialTeamsPlayType = "Punt" ∧ p.specialTeamsResult = "Return" ∧
        p.kickReturnYardage.isSome)
      "punt_received")
  else if play_end_event_name = "fair_catch" then
    .ok (prepFrames track play pff
      (fun p => p.specialTeamsPlayType = "Punt" ∧ p.specialTeamsResult = "Fair Catch")
      "fair_catch")
  else
    .error ("Invalid input for play_end_event_name in nfl_bdb22.prep_get_modeling_frames: expected punt_received or fair_catch. Input was "
      ++ play_end_event_name)

/-- A row of `feat_timeToCatch`'s output: all original tracking columns plus
the `timeToCatch` feature, NaN (`none`) for plays without the catch event. -/
structure TtcRow where
  base : TrackRow
  timeToCatch : Option ℚ
deriving DecidableEq

/-- The `timeToCatch` value of one tracking row: the left-merge with the catch
frame table followed by `(puntReceivedFrameId - frameId) / 10`.  The catch
frame table has one row per play key, so the left merge is a lookup. -/
def timeToCatchOf (track : List TrackRow) (ct : String) (r : TrackRow) : Option ℚ :=
  ((catchFrameTable track ct).find? (fun e => e.1.1 = r.gameId ∧ e.1.2 = r.playId)).map
    (fun e => ((e.2 : ℚ) - (r.frameId : ℚ)) / 10)

/-- The row list built by `feat_timeToCatch` after its argument check: the
input rows (left merge keeps every row, in order) with `timeToCatch`
assigned. -/
def feat_timeToCatch_rows (track : List TrackRow) (ct : String) : List TtcRow :=
  track.map (fun r => ⟨r, timeToCatchOf track ct r⟩)

/-- `nfl_bdb22.feat_timeToCatch`: checks `catch_type` first (ValueError
embedded as `Except.error`), then assigns the `timeToCatch` feature. -/
def feat_timeToCatch (track : List TrackRow) (catch_type : String) :
    Except String (List TtcRow) :=
  if catch_type = "punt_received" ∨ catch_type = "fair_catch" then
    .ok (feat_timeToCatch_rows track catch_type)
  else
    .error ("Invalid input for catch_type in nfl_bdb22.feat_timeToCatch: expected punt_received or fair_catch. Input was "
      ++ catch_type)

/-- The groupby of `prep_remove_low_hangtime_punts`: the maximum `timeToCatch`
over all rows of one play (pandas `max` skips NaN; a play whose rows are all
NaN has a NaN maximum and never passes the `<=` filter, embedded as
`none`). -/
def playMaxTTC (track : List TrackRow) (k : Int × Int) : Option ℚ :=
  (((feat_timeToCatch_rows track "punt_received").filter
      (fun tr => trkKey tr.base = k)).filterMap (fun tr => tr.timeToCatch)).max?

/-- Modelled from the spec: `nflutil.remove_abnormal_plays` is called by
nfl_bdb22.py but missing from the repository's source files.  From its name
and its call site (it receives the tracking data and a list of
(gameId, playId) pairs and its result is returned as the cleaned tracking
data), it removes every row whose play key is in the list. -/
def remove_abnormal_plays (track : List TrackRow) (keys : List (Int × Int)) :
    List TrackRow :=
  track.filter (fun r => ¬ trkKey r ∈ keys)

/-- `nfl_bdb22.prep_remove_low_hangtime_punts`: collects the play keys whose
maximum `timeToCatch` passes `<= hangtime_thresh` (the groupby enumerates the
distinct play keys of the tracking data) and removes their rows; when no play
qualifies the input DataFrame itself is returned. -/
def prep_remove_low_hangtime_punts (track : List TrackRow) (hangtime_thresh : ℚ) :
    List TrackRow :=
  let plays_to_remove := (trackKeys track).filter (fun k =>
    match playMaxTTC track k with
    | some m => decide (m ≤ hangtime_thresh)
    | none => false)
  if plays_to_remove.length > 0 then remove_abnormal_plays track plays_to_remove
  else track

/-! ### nfl_bdb22.py: feat_byDefender -/

/-- A row after the returner-location steps of `feat_byDefender` (merge with
the single-returner plays on `nflId = float(returnerId)`, filter to the key
columns, rename x/y/team to the returner columns). -/
structure RetRow where
  gameId : Int
  playId : Int
  frameId : Int
  timeToCatch : Option ℚ
  teamReturner : String
  x_returner : ℚ
  y_returner : ℚ
deriving DecidableEq

/-- A row after the merge of the returner data back onto the tracking data of
all players on (gameId, playId, frameId). -/
structure JRow where
  gameId : Int
  playId : Int
  frameId : Int
  timeToCatch : Option ℚ
  teamReturner : String
  x_returner : ℚ
  y_returner : ℚ
  nflId : Option ℚ
  team : String
  x : ℚ
  y : ℚ
  s : ℚ
  o : ℚ
  dir : ℚ
deriving DecidableEq

/-- A row after the inner merge with games.csv on gameId. -/
structure GJRow extends JRow where
  homeTeamAbbr : String
  visitorTeamAbbr : String
deriving DecidableEq

/-- A row after `puntTeamAbbr` is assigned and the intermediate columns
`teamReturner`, `team`, `homeTeamAbbr`, `visitorTeamAbbr` are dropped. -/
structure DRow where
  gameId : Int
  playId : Int
  frameId : Int
  timeToCatch : Option ℚ
  x_returner : ℚ
  y_returner : ℚ
  nflId : Option ℚ
  x : ℚ
  y : ℚ
  s : ℚ
  o : ℚ
  dir : ℚ
  puntTeamAbbr : String
deriving DecidableEq

/-- A row after the `dist` column is assigned. -/
structure DistRow extends DRow where
  dist : ℝ

/-- A row after the `distOrder` column (cumcount within the frame plus one)
is assigned. -/
structure OrdRow extends DistRow where
  distOrder : ℕ

/-- A row after the per-defender feature columns are assigned (and, after the
group sums are merged on, with the five count columns holding the per-frame
sums). -/
structure FeatRow extends OrdRow where
  timeToClose : ℝ
  upGutLeverage : ℚ
  willReachFactor : Option ℝ
  willReach : ℤ
  reachWithin5 : ℤ
  reachWithin10 : ℤ
  reachWithin20 : ℤ
  reachWithin30 : ℤ

/-- Lines 106-117 of nfl_bdb22.py: assign `timeToCatch` to the tracking rows,
inner-merge with the single-returner plays on `nflId = float(returnerId)`,
keep the key columns and rename to the returner columns. -/
def byDef_returner (track : List TrackRow) (play : List PlayRow) (ct : String) :
    List RetRow :=
  (feat_timeToCatch_rows track ct).flatMap (fun tr =>
    ((play.filter (fun p => singleReturner p)).filter (fun p =>
      p.gameId = tr.base.gameId ∧ p.playId = tr.base.playId ∧
        floatKeyEq tr.base.nflId (returnerIdFloat p) = true)).map (fun _ =>
      ⟨tr.base.gameId, tr.base.playId, tr.base.frameId, tr.timeToCatch,
        tr.base.team, tr.base.x, tr.base.y⟩))

/-- Lines 118-121: left-merge the returner rows with the tracking data of all
players on (gameId, playId, frameId).  (Every returner row comes from a
tracking row of the same frame, so each left row has at least one match and
no NaN-padded row arises.) -/
def byDef_joined (track : List TrackRow) (play : List PlayRow) (ct : String) :
    List JRow :=
  (byDef_returner track play ct).flatMap (fun ret =>
    (track.filter (fun t => t.gameId = ret.gameId ∧ t.playId = ret.playId ∧
        t.frameId = ret.frameId)).map (fun t =>
      ⟨ret.gameId, ret.playId, ret.frameId, ret.timeToCatch, ret.teamReturner,
        ret.x_returner, ret.y_returner, t.nflId, t.team, t.x, t.y, t.s, t.o, t.dir⟩))

/-- Lines 122-125: inner-merge with games.csv on gameId to attach the home and
away team abbreviations. -/
def byDef_game (track : List TrackRow) (play : List PlayRow) (game : List GameRow)
    (ct : String) : List GJRow :=
  (byDef_joined track play ct).flatMap (fun j =>
    (game.filter (fun g => g.gameId = j.gameId)).map (fun g =>
      ⟨j, g.homeTeamAbbr, g.visitorTeamAbbr⟩))

/-- Lines 126-127: filter to the opposing-team (punting team) players,
excluding the football. -/
def byDef_opp (track : List TrackRow) (play : List PlayRow) (game : List GameRow)
    (ct : String) : List GJRow :=
  (byDef_game track play game ct).filter (fun j =>
    j.teamReturner ≠ j.team ∧ j.team ≠ "football")

/-- Lines 128-130: assign `puntTeamAbbr` (home abbreviation for home-team
defenders, else the visitor abbreviation) and drop the intermediate
columns. -/
def byDef_punt (track : List TrackRow) (play : List PlayRow) (game : List GameRow)
    (ct : String) : List DRow :=
  (byDef_opp track play game ct).map (fun j =>
    ⟨j.gameId, j.playId, j.frameId, j.timeToCatch, j.x_returner, j.y_returner,
      j.nflId, j.x, j.y, j.s, j.o, j.dir,
      if j.team = "home" then j.homeTeamAbbr else j.visitorTeamAbbr⟩)

/-- Lines 131-132: assign the distance to the returner
`dist = sqrt((x - x_returner)^2 + (y - y_returner)^2)`. -/
noncomputable def byDef_dist (track : List TrackRow) (play : List PlayRow)
    (game : List GameRow) (ct : String) : List DistRow :=
  (byDef_punt track play game ct).map (fun d =>
    ⟨d, Real.sqrt (((d.x : ℝ) - (d.x_returner : ℝ)) ^ 2 +
      ((d.y : ℝ) - (d.y_returner : ℝ)) ^ 2)⟩)

/-- The lexicographic comparison used by
`sort_values(['gameId','playId','frameId','dist'])`. -/
noncomputable def distRowLe (a b : DistRow) : Bool :=
  decide (a.gameId < b.gameId ∨ (a.gameId = b.gameId ∧ (a.playId < b.playId ∨
    (a.playId = b.playId ∧ (a.frameId < b.frameId ∨
      (a.frameId = b.frameId ∧ a.dist ≤ b.dist))))))

/-- Lines 133-134: sort by (gameId, playId, frameId, dist). -/
noncomputable def byDef_sorted (track : List TrackRow) (play : List PlayRow)
    (game : List GameRow) (ct : String) : List DistRow :=
  (byDef_dist track play game ct).mergeSort distRowLe

/-- Line 136: `groupby(['gameId','playId','frameId']).cumcount() + 1` in the
current (sorted) row order: one plus the number of earlier rows of the same
frame. -/
def addDistOrder (l : List DistRow) : List OrdRow :=
  l.enum.map (fun ir =>
    ⟨ir.2, ((l.take ir.1).filter (fun d2 =>
      d2.gameId = ir.2.gameId ∧ d2.playId = ir.2.playId ∧
        d2.frameId = ir.2.frameId)).length + 1⟩)

/-- The sorted rows with `distOrder` assigned. -/
noncomputable def byDef_ord (track : List TrackRow) (play : List PlayRow)
    (game : List GameRow) (ct : String) : List OrdRow :=
  addDistOrder (byDef_sorted track play game ct)

/-- Line 137: `timeToClose = dist / np.maximum(s, 0.01)`. -/
noncomputable def timeToCloseOf (r : OrdRow) : ℝ := r.dist / max (r.s : ℝ) (1 / 100)

/-- Line 138: `upGutLeverage = |y - y_returner|`. -/
def upGutLeverageOf (r : OrdRow) : ℚ := |r.y - r.y_returner|

/-- Line 139: `willReachFactor = (timeToClose - timeToCatch) /
np.maximum(0.1, timeToCatch)` (NaN timeToCatch propagates to NaN). -/
noncomputable def willReachFactorOf (r : OrdRow) : Option ℝ :=
  r.timeToCatch.map (fun t => (timeToCloseOf r - (t : ℝ)) / max (1 / 10) (t : ℝ))

/-- Line 140: `willReach = np.where(timeToClose <= timeToCatch, 1, 0)` (a
comparison against NaN is false). -/
noncomputable def willReachOf (r : OrdRow) : ℤ :=
  match r.timeToCatch with
  | some t => if timeToCloseOf r ≤ (t : ℝ) then 1 else 0
  | none => 0

/-- Lines 141-144: `reachWithinK = np.where(dist - s * timeToCatch <= K, 1,
0)` (a comparison against NaN is false). -/
noncomputable def reachWithinOf (k : ℚ) (r : OrdRow) : ℤ :=
  match r.timeToCatch with
  | some t => if r.dist - (r.s : ℝ) * (t : ℝ) ≤ (k : ℝ) then 1 else 0
  | none => 0

/-- Lines 136-145: the feature assignment of one row. -/
noncomputable def featAssign (r : OrdRow) : FeatRow :=
  ⟨r, timeToCloseOf r, upGutLeverageOf r, willReachFactorOf r, willReachOf r,
    reachWithinOf 5 r, reachWithinOf 10 r, reachWithinOf 20 r, reachWithinOf 30 r⟩

/-- The rows with all per-defender features assigned, before the per-frame
group sums and before the distOrder filter. -/
noncomputable def byDef_feats (track : List TrackRow) (play : List PlayRow)
    (game : List GameRow) (ct : String) : List FeatRow :=
  (byDef_ord track play game ct).map featAssign

/-- The `groupby(['gameId','playId','frameId'])[cols].sum()` of lines 147-153:
the sum of one count column over all rows of one frame. -/
noncomputable def groupSum (l : List FeatRow) (f : FeatRow → ℤ) (g p fr : Int) : ℤ :=
  ((l.filter (fun r => r.gameId = g ∧ r.playId = p ∧ r.frameId = fr)).map f).sum

/-- Lines 146-153: drop the five per-row count columns and inner-merge the
per-frame group sums back onto every row (the groupby result has exactly one
row per frame key, so the merge replaces the five columns by their frame
sums). -/
noncomputable def sumAssign (l : List FeatRow) (r : FeatRow) : FeatRow :=
  { r with
    willReach := groupSum l (fun d => d.willReach) r.gameId r.playId r.frameId,
    reachWithin5 := groupSum l (fun d => d.reachWithin5) r.gameId r.playId r.frameId,
    reachWithin10 := groupSum l (fun d => d.reachWithin10) r.gameId r.playId r.frameId,
    reachWithin20 := groupSum l (fun d => d.reachWithin20) r.gameId r.playId r.frameId,
    reachWithin30 := groupSum l (fun d => d.reachWithin30) r.gameId r.playId r.frameId }

/-- The rows after the group-sum merge. -/
noncomputable def byDef_sums (track : List TrackRow) (play : List PlayRow)
    (game : List GameRow) (ct : String) : List FeatRow :=
  (byDef_feats track play game ct).map (sumAssign (byDef_feats track play game ct))

/-- Lines 154-155: `query('distOrder <= n_defenders')`. -/
noncomputable def byDef_top (track : List TrackRow) (play : List PlayRow)
    (game : List GameRow) (ct : String) (n_defenders : Int) : List FeatRow :=
  (byDef_sums track play game ct).filter (fun r => (r.distOrder : Int) ≤ n_defenders)

/-- The pivot index tuple of lines 156-160. -/
structure OutKey where
  gameId : Int
  playId : Int
  frameId : Int
  timeToCatch : Option ℚ
  willReach : ℤ
  reachWithin5 : ℤ
  reachWithin10 : ℤ
  reachWithin20 : ℤ
  reachWithin30 : ℤ
deriving DecidableEq

/-- The pivot index tuple of one row. -/
def outKey (r : FeatRow) : OutKey :=
  ⟨r.gameId, r.playId, r.frameId, r.timeToCatch, r.willReach, r.reachWithin5,
    r.reachWithin10, r.reachWithin20, r.reachWithin30⟩

/-- A row of `feat_byDefender`'s output: one row per pivot index tuple, with
the per-defender value columns spread by `distOrder` (the flattened pivot
columns are embedded as a list of (distOrder, dist, timeToClose,
upGutLeverage, willReachFactor) entries). -/
structure OutRow where
  gameId : Int
  playId : Int
  frameId : Int
  timeToCatch : Option ℚ
  willReach : ℤ
  reachWithin5 : ℤ
  reachWithin10 : ℤ
  reachWithin20 : ℤ
  reachWithin30 : ℤ
  defenderCols : List (ℕ × ℝ × ℝ × ℚ × Option ℝ)

/-- Lines 156-165: the pivot to one row per index tuple. -/
noncomputable def byDef_pivot (l : List FeatRow) : List OutRow :=
  ((l.map outKey).dedup).map (fun k =>
    ⟨k.gameId, k.playId, k.frameId, k.timeToCatch, k.willReach, k.reachWithin5,
      k.reachWithin10, k.reachWithin20, k.reachWithin30,
      (l.filter (fun r => outKey r = k)).map (fun r =>
        (r.distOrder, r.dist, r.timeToClose, r.upGutLeverage, r.willReachFactor))⟩)

/-- `nfl_bdb22.feat_byDefender`: the whole pipeline.  The argument check of
the inner `feat_timeToCatch` call (line 109) raises for an invalid
`catch_type` before anything else is computed. -/
noncomputable def feat_byDefender (track : List TrackRow) (play : List PlayRow)
    (game : List GameRow) (n_defenders : Int) (catch_type : String) :
    Except String (List OutRow) :=
  if catch_type = "punt_received" ∨ catch_type = "fair_catch" then
    .ok (byDef_pivot (byDef_top track play game catch_type n_defenders))
  else
    .error ("Invalid input for catch_type in nfl_bdb22.feat_timeToCatch: expected punt_received or fair_catch. Input was "
      ++ catch_type)

/-- The willReach indicator of the claim, written from the raw columns:
1 when `dist / max(s, 0.01) <= timeToCatch`. -/
noncomputable def indWillReach (d : FeatRow) : ℤ :=
  match d.timeToCatch with
  | some t => if d.dist / max (d.s : ℝ) (1 / 100) ≤ (t : ℝ) then 1 else 0
  | none => 0

/-- The reachWithinK indicator of the claim, written from the raw columns:
1 when `dist - s * timeToCatch <= K`. -/
noncomputable def indReachWithin (k : ℚ) (d : FeatRow) : ℤ :=
  match d.timeToCatch with
  | some t => if d.dist - (d.s : ℝ) * (t : ℝ) ≤ (k : ℝ) then 1 else 0
  | none => 0

/-- The sum of an indicator over all punting-team defender rows of one frame
(the rows of `byDef_feats`: every defender of the frame, before the
n-closest filter). -/
noncomputable def frameDefenderSum (track : List TrackRow) (play : List PlayRow)
    (game : List GameRow) (ct : String) (g p f : Int) (ind : FeatRow → ℤ) : ℤ :=
  (((byDef_feats track play game ct).filter (fun d =>
    d.gameId = g ∧ d.playId = p ∧ d.frameId = f)).map ind).sum

/-! ### nfl_bdb22.py: returner speed features -/

/-- The merge shared by `feat_returnerLateralSpeed`,
`feat_returnerDownfieldSpeed`, `feat_returnerSpeed` and
`feat_returnerDistFromSideline`: the tracking rows inner-merged with the
single-returner plays on `nflId = float(returnerId)` (and the play key), i.e.
the returner's own tracking rows. -/
def returnerMergeRows (track : List TrackRow) (play : List PlayRow) : List TrackRow :=
  track.flatMap (fun t =>
    ((play.filter (fun p => singleReturner p)).filter (fun p =>
      p.gameId = t.gameId ∧ p.playId = t.playId ∧
        floatKeyEq t.nflId (returnerIdFloat p) = true)).map (fun _ => t))

/-- `np.deg2rad`. -/
noncomputable def deg2rad (d : ℚ) : ℝ := (d : ℝ) * Real.pi / 180

/-- A row of `feat_returnerLateralSpeed`'s output. -/
structure LatRow where
  gameId : Int
  playId : Int
  frameId : Int
  s_lateral : ℝ

/-- `nfl_bdb22.feat_returnerLateralSpeed`: on the returner's rows, the speed
towards either sideline `s_lateral = s * |cos(deg2rad(dir))|`, keeping the
key columns. -/
noncomputable def feat_returnerLateralSpeed (track : List TrackRow)
    (play : List PlayRow) : List LatRow :=
  (returnerMergeRows track play).map (fun t =>
    ⟨t.gameId, t.playId, t.frameId, (t.s : ℝ) * |Real.cos (deg2rad t.dir)|⟩)

/-- A row of `feat_returnerDownfieldSpeed`'s output. -/
structure DwnRow where
  gameId : Int
  playId : Int
  frameId : Int
  s_dwnfld : ℝ

/-- `nfl_bdb22.feat_returnerDownfieldSpeed`: on the returner's rows, the
downfield speed `s_dwnfld = s * -sin(deg2rad(dir))` (directions 0-180 degrees
point towards the returner's own end zone), keeping the key columns. -/
noncomputable def feat_returnerDownfieldSpeed (track : List TrackRow)
    (play : List PlayRow) : List DwnRow :=
  (returnerMergeRows track play).map (fun t =>
    ⟨t.gameId, t.playId, t.frameId, (t.s : ℝ) * -Real.sin (deg2rad t.dir)⟩)

deriving instance DecidableEq for Except

/-! ### nflplot.py: PlayAnimation -/

/-- A row of the play's tracking data as used by `PlayAnimation.update`.
`jerseyNumber` is NaN (`none`) on the football's rows. -/
structure PRow where
  frameId : Int
  nflId : Option ℚ
  team : String
  x : ℚ
  y : ℚ
  jerseyNumber : Option ℤ
  position : String
  displayName : String
deriving DecidableEq

/-- A matplotlib text object as mutated by the update callback: its position,
its content and its color (an RGB triple). -/
structure TextObj where
  pos : ℚ × ℚ
  txt : String
  color : ℚ × ℚ × ℚ
deriving DecidableEq

/-- A matplotlib Line2D object as mutated by the update callback: its x data,
its y data and its color. -/
structure LineObj where
  xdata : List ℚ
  ydata : List ℚ
  color : ℚ × ℚ × ℚ
deriving DecidableEq

/-- The state of a `PlayAnimation` object: the fields set in the constructor
(title, first-down distance, player count, the two team color pairs, the
play's tracking rows and frame ids) and the mutable plot primitives (the three
scatter offset arrays and the per-player text and track-line objects). -/
structure PlayAnimation where
  title : String
  firstDownDistance : ℚ
  numPlayers : ℕ
  homeMainColor : ℚ × ℚ × ℚ
  homeSecondaryColor : ℚ × ℚ × ℚ
  awayMainColor : ℚ × ℚ × ℚ
  awaySecondaryColor : ℚ × ℚ × ℚ
  frameData : List PRow
  frameIds : List Int
  scatFbOffsets : List ℚ
  scatHomeOffsets : List (ℚ × ℚ)
  scatAwayOffsets : List (ℚ × ℚ)
  scatPositionList : List TextObj
  scatNumberList : List TextObj
  scatNameList : List TextObj
  plotTrackList : List LineObj
deriving DecidableEq

/-- `self._team_colors[team]['main']`: the dict built in the constructor has
exactly the keys home and away (the rows reaching the lookup carry one of the
two). -/
def mainColor (pa : PlayAnimation) (team : String) : ℚ × ℚ × ℚ :=
  if team = "home" then pa.homeMainColor else pa.awayMainColor

/-- `self._team_colors[team]['secondary']`. -/
def secondaryColor (pa : PlayAnimation) (team : String) : ℚ × ℚ × ℚ :=
  if team = "home" then pa.homeSecondaryColor else pa.awaySecondaryColor

/-- `displayName.split()[-1]`: the last whitespace-separated word. -/
def lastName (s : String) : String :=
  ((s.splitOn " ").filter (fun w => ¬ w = "")).getLastD ""

/-- The rows of the current animation frame
(`self._frame_data[self._frame_data.frameId == anim_frame]`). -/
def frameRowsOf (pa : PlayAnimation) (f : Int) : List PRow :=
  pa.frameData.filter (fun r => r.frameId = f)

/-- The cumulative history rows
(`self._frame_data[self._frame_data.frameId <= anim_frame]`). -/
def histRowsOf (pa : PlayAnimation) (f : Int) : List PRow :=
  pa.frameData.filter (fun r => r.frameId ≤ f)

/-- The player rows of the current frame
(`pos_df[pos_df.jerseyNumber.notnull()]`), in row order; the loop index of
`reset_index().iterrows()` is the position in this list. -/
def playersOf (pa : PlayAnimation) (f : Int) : List PRow :=
  (frameRowsOf pa f).filter (fun r => r.jerseyNumber.isSome)

/-- The mutation of one position text (dot text, position string, secondary
color). -/
def mkPositionText (pa : PlayAnimation) (pl : PRow) : TextObj :=
  ⟨(pl.x, pl.y), pl.position, secondaryColor pa pl.team⟩

/-- The mutation of one number text (above the dot, the jersey number as an
integer, main color). -/
def mkNumberText (pa : PlayAnimation) (pl : PRow) : TextObj :=
  ⟨(pl.x, pl.y + 19/10),
    (match pl.jerseyNumber with
      | some n => toString n
      | none => ""),
    mainColor pa pl.team⟩

/-- The mutation of one name text (below the dot, last name only, main
color). -/
def mkNameText (pa : PlayAnimation) (pl : PRow) : TextObj :=
  ⟨(pl.x, pl.y - 19/10), lastName pl.displayName, mainColor pa pl.team⟩

/-- The mutation of one track line: the player's x,y history over the rows
with `frameId <= anim_frame` (pandas `==` on the float nflId column never
matches NaN), in main color. -/
def mkTrackLine (pa : PlayAnimation) (hist : List PRow) (pl : PRow) : LineObj :=
  ⟨(hist.filter (fun h => floatKeyEq h.nflId pl.nflId = true)).map (fun h => h.x),
    (hist.filter (fun h => floatKeyEq h.nflId pl.nflId = true)).map (fun h => h.y),
    mainColor pa pl.team⟩

/-- The indexed mutation loop `for (index, player) in
player_df.reset_index().iterrows(): objs[index].set_...(...)`: element i of
the object list is replaced using player i, for i below the number of
players. -/
def setByIndex {β : Type} (old : List β) (players : List PRow) (mk : PRow → β) :
    List β :=
  players.enum.foldl (fun acc ip => acc.set ip.1 (mk ip.2)) old

/-- `nflplot.PlayAnimation.update`: for each team label present among the
current frame's rows, the corresponding scatter offsets are set from those
rows (np.hstack flattens the football's x and y; np.vstack().T pairs the
players' coordinates); the per-player text objects and track lines are
mutated index by index over the players of the current frame; everything else
is untouched. -/
def PlayAnimation.update (pa : PlayAnimation) (anim_frame : Int) : PlayAnimation :=
  { pa with
    scatFbOffsets :=
      if "football" ∈ (frameRowsOf pa anim_frame).map (fun r => r.team) then
        ((frameRowsOf pa anim_frame).filter (fun r => r.team = "football")).map
            (fun r => r.x) ++
          ((frameRowsOf pa anim_frame).filter (fun r => r.team = "football")).map
            (fun r => r.y)
      else pa.scatFbOffsets,
    scatHomeOffsets :=
      if "home" ∈ (frameRowsOf pa anim_frame).map (fun r => r.team) then
        ((frameRowsOf pa anim_frame).filter (fun r => r.team = "home")).map
          (fun r => (r.x, r.y))
      else pa.scatHomeOffsets,
    scatAwayOffsets :=
      if "away" ∈ (frameRowsOf pa anim_frame).map (fun r => r.team) then
        ((frameRowsOf pa anim_frame).filter (fun r => r.team = "away")).map
          (fun r => (r.x, r.y))
      else pa.scatAwayOffsets,
    scatPositionList :=
      setByIndex pa.scatPositionList (playersOf pa anim_frame) (mkPositionText pa),
    scatNumberList :=
      setByIndex pa.scatNumberList (playersOf pa anim_frame) (mkNumberText pa),
    scatNameList :=
      setByIndex pa.scatNameList (playersOf pa anim_frame) (mkNameText pa),
    plotTrackList :=
      setByIndex pa.plotTrackList (playersOf pa anim_frame)
        (mkTrackLine pa (histRowsOf pa anim_frame)) }

/-- The full amended description of one `update` call, stated over the state
embedding: the constructor-set fields are untouched; each team scatter is set
from the frame's rows of that team when present and left unchanged when the
label is absent; the first k text objects and track lines (k = number of
player rows of the frame) are set from those players in order and the
remaining ones are left unchanged; no plot objects are created or dropped
(the four object lists keep their lengths). -/
def updateFrameEffect (pa : PlayAnimation) (f : Int) : Prop :=
  (pa.update f).title = pa.title ∧
  (pa.update f).firstDownDistance = pa.firstDownDistance ∧
  (pa.update f).numPlayers = pa.numPlayers ∧
  (pa.update f).homeMainColor = pa.homeMainColor ∧
  (pa.update f).homeSecondaryColor = pa.homeSecondaryColor ∧
  (pa.update f).awayMainColor = pa.awayMainColor ∧
  (pa.update f).awaySecondaryColor = pa.awaySecondaryColor ∧
  (pa.update f).frameData = pa.frameData ∧
  (pa.update f).frameIds = pa.frameIds ∧
  ("football" ∈ (frameRowsOf pa f).map (fun r => r.team) →
    (pa.update f).scatFbOffsets =
      ((frameRowsOf pa f).filter (fun r => r.team = "football")).map (fun r => r.x) ++
        ((frameRowsOf pa f).filter (fun r => r.team = "football")).map (fun r => r.y)) ∧
  ("football" ∉ (frameRowsOf pa f).map (fun r => r.team) →
    (pa.update f).scatFbOffsets = pa.scatFbOffsets) ∧
  ("home" ∈ (frameRowsOf pa f).map (fun r => r.team) →
    (pa.update f).scatHomeOffsets =
      ((frameRowsOf pa f).filter (fun r => r.team = "home")).map (fun r => (r.x, r.y))) ∧
  ("home" ∉ (frameRowsOf pa f).map (fun r => r.team) →
    (pa.update f).scatHomeOffsets = pa.scatHomeOffsets) ∧
  ("away" ∈ (frameRowsOf pa f).map (fun r => r.team) →
    (pa.update f).scatAwayOffsets =
      ((frameRowsOf pa f).filter (fun r => r.team = "away")).map (fun r => (r.x, r.y))) ∧
  ("away" ∉ (frameRowsOf pa f).map (fun r => r.team) →
    (pa.update f).scatAwayOffsets = pa.scatAwayOffsets) ∧
  (pa.update f).scatPositionList =
    (playersOf pa f).map (mkPositionText pa) ++
      pa.scatPositionList.drop (playersOf pa f).length ∧
  (pa.update f).scatNumberList =
    (playersOf pa f).map (mkNumberText pa) ++
      pa.scatNumberList.drop (playersOf pa f).length ∧
  (pa.update f).scatNameList =
    (playersOf pa f).map (mkNameText pa) ++
      pa.scatNameList.drop (playersOf pa f).length ∧
  (pa.update f).plotTrackList =
    (playersOf pa f).map (mkTrackLine pa (histRowsOf pa f)) ++
      pa.plotTrackList.drop (playersOf pa f).length ∧
  (pa.update f).scatPositionList.length = pa.scatPositionList.length ∧
  (pa.update f).scatNumberList.length = pa.scatNumberList.length ∧
  (pa.update f).scatNameList.length = pa.scatNameList.length ∧
  (pa.update f).plotTrackList.length = pa.plotTrackList.length

/-! ### Concrete example data used by witnesses -/

/-- A small tracking DataFrame: one play with two frames, the punt at frame 1
and the catch at frame 2, a returner (nflId 10) and one defender (nflId
20). -/
def exTrack : List TrackRow :=
  [⟨1, 1, 1, some 10, "away", 0, 0, 3, 0, 0, "punt"⟩,
   ⟨1, 1, 2, some 10, "away", 0, 0, 3, 0, 0, "punt_received"⟩,
   ⟨1, 1, 1, some 20, "home", 3, 4, 1, 0, 0, "punt"⟩,
   ⟨1, 1, 2, some 20, "home", 3, 4, 1, 0, 0, "punt_received"⟩]

/-- The play row for the example play: a clean single-returner punt return. -/
def exPlay : List PlayRow := [⟨1, 1, "Punt", "Return", some 5, some "10"⟩]

/-- The PFF row for the example play: a clean catch. -/
def exPff : List PffRow := [⟨1, 1, "CC"⟩]

/-- The first tracking row of the example play. -/
def exR : TrackRow := ⟨1, 1, 1, some 10, "away", 0, 0, 3, 0, 0, "punt"⟩

/-- A tracking DataFrame whose single play has no punt_received event, so its
maximum timeToCatch is NaN. -/
def exTrackNC : List TrackRow := [⟨1, 1, 1, some 10, "away", 0, 0, 3, 0, 0, "punt"⟩]

/-- A one-frame tracking DataFrame for the defender-feature witnesses: the
returner (nflId 10, speed 3) and one defender (nflId 20, speed 1) at the same
point at the catch frame. -/
def exTrackB : List TrackRow :=
  [⟨1, 1, 1, some 10, "away", 0, 0, 3, 0, 0, "punt_received"⟩,
   ⟨1, 1, 1, some 20, "home", 0, 0, 1, 0, 0, "punt_received"⟩]

/-- The returner's tracking row in `exTrackB`. -/
def exRetT : TrackRow := ⟨1, 1, 1, some 10, "away", 0, 0, 3, 0, 0, "punt_received"⟩

/-- The games.csv row of the example game. -/
def exGame : List GameRow := [⟨1, "KC", "ATL"⟩]

/-- A one-frame tracking DataFrame without events (timeToCatch is NaN): the
returner (nflId 10) and one punting-team defender (nflId 20) at the same
point. -/
def exTrackD : List TrackRow :=
  [⟨1, 1, 1, some 10, "away", 0, 0, 3, 0, 0, ""⟩,
   ⟨1, 1, 1, some 20, "home", 0, 0, 1, 0, 0, ""⟩]

/-- The defender row of `exTrackD` after the opposing-team filter and the
`puntTeamAbbr` assignment. -/
def exDRow : DRow := ⟨1, 1, 1, none, 0, 0, some 20, 0, 0, 1, 0, 0, "KC"⟩

/-- The defender row with its `dist` column. -/
noncomputable def exDistRow : DistRow :=
  ⟨exDRow, Real.sqrt (((exDRow.x : ℝ) - (exDRow.x_returner : ℝ)) ^ 2 +
    ((exDRow.y : ℝ) - (exDRow.y_returner : ℝ)) ^ 2)⟩

/-- The defender row with its `distOrder` (the closest defender). -/
noncomputable def exOrd : OrdRow := ⟨exDistRow, 1⟩

/-- The defender row with all per-defender features. -/
noncomputable def exFeat : FeatRow := featAssign exOrd

/-- The defender row with the per-frame count sums merged on. -/
noncomputable def exSum : FeatRow := sumAssign [exFeat] exFeat

/-- The single output row of `feat_byDefender` on the example frame. -/
noncomputable def exOut : OutRow :=
  ⟨1, 1, 1, none, exSum.willReach, exSum.reachWithin5, exSum.reachWithin10,
    exSum.reachWithin20, exSum.reachWithin30,
    [(exSum.distOrder, exSum.dist, exSum.timeToClose, exSum.upGutLeverage,
      exSum.willReachFactor)]⟩

/-- An animation state whose frame 1 holds only the football: stale home
scatter offsets. -/
def paCE : PlayAnimation :=
  { title := "t", firstDownDistance := 0, numPlayers := 1,
    homeMainColor := (0, 0, 0), homeSecondaryColor := (1, 1, 1),
    awayMainColor := (0, 0, 0), awaySecondaryColor := (1, 1, 1),
    frameData := [⟨1, none, "football", 2, 3, none, "", ""⟩],
    frameIds := [1],
    scatFbOffsets := [], scatHomeOffsets := [(9, 9)], scatAwayOffsets := [],
    scatPositionList := [⟨(0, 0), "", (0, 0, 0)⟩],
    scatNumberList := [⟨(0, 0), "", (0, 0, 0)⟩],
    scatNameList := [⟨(0, 0), "", (0, 0, 0)⟩],
    plotTrackList := [⟨[], [], (0, 0, 0)⟩] }

/-- An animation state whose frame 1 holds one home-team player. -/
def paW : PlayAnimation :=
  { title := "t", firstDownDistance := 0, numPlayers := 1,
    homeMainColor := (0, 0, 0), homeSecondaryColor := (1, 1, 1),
    awayMainColor := (0, 0, 0), awaySecondaryColor := (1, 1, 1),
    frameData := [⟨1, some 7, "home", 2, 3, some 12, "QB", "Jo Doe"⟩],
    frameIds := [1],
    scatFbOffsets := [], scatHomeOffsets := [], scatAwayOffsets := [],
    scatPositionList := [⟨(0, 0), "", (0, 0, 0)⟩],
    scatNumberList := [⟨(0, 0), "", (0, 0, 0)⟩],
    scatNameList := [⟨(0, 0), "", (0, 0, 0)⟩],
    plotTrackList := [⟨[], [], (0, 0, 0)⟩] }

/-! ### Theorems for claims C9 and C10 -/

theorem pymod_eq_self {a : ℚ} (h0 : 0 ≤ a) (h1 : a < 360) : pymod a 360 = a := by
  have hfl : ⌊a / 360⌋ = 0 := by
    rw [Int.floor_eq_iff]
    push_cast
    constructor
    · positivity
    · rw [div_lt_iff (by norm_num)]
      linarith
  simp [pymod, hfl]

theorem pymod_sub_360 {a : ℚ} (h0 : 360 ≤ a) (h1 : a < 720) : pymod a 360 = a - 360 := by
  have hfl : ⌊a / 360⌋ = 1 := by
    rw [Int.floor_eq_iff]
    push_cast
    constructor
    · rw [le_div_iff (by norm_num)]
      linarith
    · rw [div_lt_iff (by norm_num)]
      linarith
  rw [pymod, hfl]
  push_cast
  ring

theorem pymod_rot180_involutive {a : ℚ} (h0 : 0 ≤ a) (h1 : a < 360) :
    pymod (pymod (a + 180) 360 + 180) 360 = a := by
  rcases lt_or_le a 180 with h | h
  · have e1 : pymod (a + 180) 360 = a + 180 := pymod_eq_self (by linarith) (by linarith)
    rw [e1, pymod_sub_360 (by linarith) (by linarith)]
    ring
  · have e1 : pymod (a + 180) 360 = a + 180 - 360 := pymod_sub_360 (by linarith) (by linarith)
    rw [e1, pymod_eq_self (by linarith) (by linarith)]
    ring

theorem transformRow_involutive {α : Type} (r : TRow α)
    (ho0 : 0 ≤ r.o) (ho1 : r.o < 360) (hd0 : 0 ≤ r.dir) (hd1 : r.dir < 360) :
    transformRow (transformRow r) = r := by
  obtain ⟨x, y, o, dir, pd, rest⟩ := r
  by_cases h : pd = "left"
  · subst h
    simp only at ho0 ho1 hd0 hd1
    simp [transformRow, sub_sub_cancel,
      pymod_rot180_involutive ho0 ho1, pymod_rot180_involutive hd0 hd1]
  · simp [transformRow, h]

/-- Claim C9: `transform_tracking_data` with `inplace=False` returns a new
DataFrame and leaves the input unchanged; the result differs from the input
only in the columns x, y, o, dir of rows with `playDirection == 'left'`
(x becomes 120 - x, y becomes 53.3 - y, o and dir become (value + 180) mod
360), while every other column of every row and every non-left row are kept
verbatim; with `inplace=True` the same transformed rows replace the input and
`None` is returned. -/
theorem transform_tracking_data_spec {α : Type} (df : List (TRow α)) :
    (transform_tracking_data df false).2 = df ∧
    ∃ out, (transform_tracking_data df false).1 = some out ∧
      transform_tracking_data df true = (none, out) ∧
      out.length = df.length ∧
      (∀ i : ℕ, out[i]? = (df[i]?).map (fun r =>
        if r.playDirection = "left" then
          { x := FIELD_SIZE_X - r.x,
            y := FIELD_SIZE_Y - r.y,
            o := pymod (r.o + 180) 360,
            dir := pymod (r.dir + 180) 360,
            playDirection := r.playDirection,
            rest := r.rest }
        else r)) ∧
      (∀ i : ℕ, ∀ r, df[i]? = some r → r.playDirection ≠ "left" → out[i]? = some r) := by
  refine ⟨rfl, df.map transformRow, rfl, rfl, by simp, fun i => ?_, fun i r hr hnl => ?_⟩
  · rw [List.getElem?_map]
    rcases df[i]? with _ | r
    · rfl
    · by_cases h : r.playDirection = "left"
      · simp [transformRow, h]
      · simp [transformRow, h]
  · rw [List.getElem?_map, hr]
    simp [transformRow, hnl]

/-- Claim C10: on tracking data whose `o` and `dir` columns lie in `[0, 360)`,
applying `transform_tracking_data` (not in place) twice gives back the
original DataFrame: the transformation is an involution. -/
theorem transform_tracking_data_involutive {α : Type} (df : List (TRow α))
    (h : ∀ r ∈ df, 0 ≤ r.o ∧ r.o < 360 ∧ 0 ≤ r.dir ∧ r.dir < 360) :
    ∃ out1 out2,
      transform_tracking_data df false = (some out1, df) ∧
      transform_tracking_data out1 false = (some out2, out1) ∧
      out2 = df := by
  refine ⟨df.map transformRow, (df.map transformRow).map transformRow, rfl, rfl, ?_⟩
  rw [List.map_map]
  have : ∀ r ∈ df, (transformRow ∘ transformRow) r = id r := by
    intro r hr
    obtain ⟨h1, h2, h3, h4⟩ := h r hr
    simpa using transformRow_involutive r h1 h2 h3 h4
  rw [List.map_congr_left this, List.map_id]

/-- Witness for claim C10 at a concrete two-row DataFrame containing a
left-directed row. -/
theorem transform_tracking_data_involutive_witness :
    ∃ out1 out2,
      transform_tracking_data
        [⟨10, 20, 190, 15, "left", (0 : ℤ)⟩, ⟨5, 6, 45, 0, "right", (7 : ℤ)⟩] false
        = (some out1,
          [⟨10, 20, 190, 15, "left", (0 : ℤ)⟩, ⟨5, 6, 45, 0, "right", (7 : ℤ)⟩]) ∧
      transform_tracking_data out1 false = (some out2, out1) ∧
      out2 = [⟨10, 20, 190, 15, "left", (0 : ℤ)⟩, ⟨5, 6, 45, 0, "right", (7 : ℤ)⟩] :=
  transform_tracking_data_involutive
    [⟨10, 20, 190, 15, "left", (0 : ℤ)⟩, ⟨5, 6, 45, 0, "right", (7 : ℤ)⟩]
    (by decide)

/-! ### Membership lemmas for the prep pipeline -/

theorem mem_innerMergeTrackPlay {track : List TrackRow} {plays : List PlayRow}
    {r : TrackRow} :
    r ∈ innerMergeTrackPlay track plays ↔
      r ∈ track ∧ ∃ p ∈ plays, p.gameId = r.gameId ∧ p.playId = r.playId := by
  constructor
  · intro h
    rw [innerMergeTrackPlay, List.mem_flatMap] at h
    obtain ⟨t, ht, hm⟩ := h
    rw [List.mem_map] at hm
    obtain ⟨p, hp, rfl⟩ := hm
    rw [List.mem_filter] at hp
    refine ⟨ht, p, hp.1, ?_, ?_⟩
    · have := hp.2
      simp only [decide_eq_true_eq] at this
      exact this.1
    · have := hp.2
      simp only [decide_eq_true_eq] at this
      exact this.2
  · rintro ⟨ht, p, hp, h1, h2⟩
    rw [innerMergeTrackPlay, List.mem_flatMap]
    exact ⟨r, ht, List.mem_map.mpr ⟨p, List.mem_filter.mpr ⟨hp, by simp [h1, h2]⟩, rfl⟩⟩

theorem mem_innerMergeTrackPff {track : List TrackRow} {pff : List PffRow}
    {r : TrackRow} :
    r ∈ innerMergeTrackPff track pff ↔
      r ∈ track ∧ ∃ q ∈ pff, q.gameId = r.gameId ∧ q.playId = r.playId := by
  constructor
  · intro h
    rw [innerMergeTrackPff, List.mem_flatMap] at h
    obtain ⟨t, ht, hm⟩ := h
    rw [List.mem_map] at hm
    obtain ⟨q, hq, rfl⟩ := hm
    rw [List.mem_filter] at hq
    refine ⟨ht, q, hq.1, ?_, ?_⟩
    · have := hq.2
      simp only [decide_eq_true_eq] at this
      exact this.1
    · have := hq.2
      simp only [decide_eq_true_eq] at this
      exact this.2
  · rintro ⟨ht, q, hq, h1, h2⟩
    rw [innerMergeTrackPff, List.mem_flatMap]
    exact ⟨r, ht, List.mem_map.mpr ⟨q, List.mem_filter.mpr ⟨hq, by simp [h1, h2]⟩, rfl⟩⟩

theorem map_fst_filter_map_pair {α β : Type} (l : List α) (g : α → β)
    (q : α × β → Bool) :
    ((l.map (fun t => (t, g t))).filter q).map Prod.fst =
      l.filter (fun t => q (t, g t)) := by
  induction l with
  | nil => rfl
  | cons a l ih =>
    simp only [List.map_cons, List.filter_cons]
    by_cases h : q (a, g a) = true
    · simp [h, ih]
    · simp [h, ih]

theorem mem_trackKeys_of_mem {track : List TrackRow} {r : TrackRow} (hr : r ∈ track) :
    (r.gameId, r.playId) ∈ trackKeys track :=
  List.mem_dedup.mpr (List.mem_map.mpr ⟨r, hr, rfl⟩)

theorem eventFirstFrame_some_key_mem {track : List TrackRow} {k : Int × Int}
    {e : String} {f : Int} (h : eventFirstFrame track k e = some f) :
    k ∈ trackKeys track := by
  by_contra hk
  have hnil : track.filter (fun r => trkKey r = k ∧ r.event = e) = [] := by
    rw [List.filter_eq_nil_iff]
    intro r hr
    simp only [decide_eq_true_eq, not_and]
    intro hkey
    exact absurd (hkey ▸ mem_trackKeys_of_mem hr) hk
  rw [eventFirstFrame, hnil] at h
  simp at h

theorem find?_filterMap_nodupKeys {κ β : Type} [DecidableEq κ]
    (f : κ → Option β) (g : β → κ) (hg : ∀ k b, f k = some b → g b = k) (k : κ) :
    ∀ keys : List κ, keys.Nodup →
      (keys.filterMap f).find? (fun b => g b = k) = if k ∈ keys then f k else none := by
  intro keys
  induction keys with
  | nil => intro _; simp
  | cons k0 ks ih =>
    intro hnd
    rw [List.nodup_cons] at hnd
    rw [List.filterMap_cons]
    rcases hf0 : f k0 with _ | b
    · rw [ih hnd.2]
      by_cases hk : k = k0
      · subst hk
        have hkks : k ∉ ks := hnd.1
        simp [hkks, hf0]
      · simp [List.mem_cons, hk]
    · have hgb : g b = k0 := hg k0 b hf0
      by_cases hk : k = k0
      · subst hk
        rw [List.find?_cons_of_pos _ (by simp [hgb])]
        simp [List.mem_cons, hf0]
      · rw [List.find?_cons_of_neg _ (by simp [hgb]; exact fun h => absurd h.symm hk)]
        rw [ih hnd.2]
        simp [List.mem_cons, hk]

theorem puntWindowTable_find?_eq (track : List TrackRow) (e1 e2 : String)
    (g p : Int) :
    (puntWindowTable track e1 e2).find? (fun e => e.1.1 = g ∧ e.1.2 = p) =
      match eventFirstFrame track (g, p) e1, eventFirstFrame track (g, p) e2 with
      | some a, some b => some ((g, p), a, b)
      | _, _ => none := by
  have hpred : (fun (e : (Int × Int) × Int × Int) => decide (e.1.1 = g ∧ e.1.2 = p)) =
      (fun e => decide (e.1 = (g, p))) := by
    funext e
    exact decide_eq_decide.mpr (by rw [Prod.ext_iff])
  have hg : ∀ (k : Int × Int) (b : (Int × Int) × Int × Int),
      (match eventFirstFrame track k e1, eventFirstFrame track k e2 with
        | some a, some b => some (k, a, b)
        | _, _ => none) = some b → b.1 = k := by
    intro k b hb
    rcases h1 : eventFirstFrame track k e1 with _ | a <;>
      rcases h2 : eventFirstFrame track k e2 with _ | c <;>
        rw [h1, h2] at hb <;> simp_all
    rw [← hb]
  have base := find?_filterMap_nodupKeys
    (f := fun k => match eventFirstFrame track k e1, eventFirstFrame track k e2 with
      | some a, some b => some (k, a, b)
      | _, _ => none)
    (g := Prod.fst) hg (g, p) (trackKeys track) (List.nodup_dedup _)
  rw [puntWindowTable, hpred]
  rw [base]
  by_cases hm : (g, p) ∈ trackKeys track
  · rw [if_pos hm]
  · rw [if_neg hm]
    rcases h1 : eventFirstFrame track (g, p) e1 with _ | a
    · rfl
    · exact absurd (eventFirstFrame_some_key_mem h1) hm

theorem mem_prepFrames (track : List TrackRow) (play : List PlayRow)
    (pff : List PffRow) (pf : PlayRow → Bool) (en : String) (r : TrackRow) :
    r ∈ prepFrames track play pff pf en ↔
      r ∈ track ∧
      (∃ p ∈ play, pf p = true ∧ p.gameId = r.gameId ∧ p.playId = r.playId) ∧
      (∃ p ∈ play, singleReturner p = true ∧ p.gameId = r.gameId ∧ p.playId = r.playId) ∧
      (∃ q ∈ pff, q.kickContactType = "CC" ∧ q.gameId = r.gameId ∧ q.playId = r.playId) ∧
      (∃ a b, eventFirstFrame track (r.gameId, r.playId) "punt" = some a ∧
        eventFirstFrame track (r.gameId, r.playId) en = some b ∧
        a ≤ r.frameId ∧ r.frameId ≤ b) := by
  simp only [prepFrames]
  rw [map_fst_filter_map_pair, List.mem_filter]
  have hs3 : r ∈ innerMergeTrackPff
      (innerMergeTrackPlay (innerMergeTrackPlay track (play.filter pf))
        (play.filter (fun p => singleReturner p)))
      (pff.filter (fun q => q.kickContactType = "CC")) ↔
      r ∈ track ∧
      (∃ p ∈ play, pf p = true ∧ p.gameId = r.gameId ∧ p.playId = r.playId) ∧
      (∃ p ∈ play, singleReturner p = true ∧ p.gameId = r.gameId ∧ p.playId = r.playId) ∧
      (∃ q ∈ pff, q.kickContactType = "CC" ∧ q.gameId = r.gameId ∧ q.playId = r.playId) := by
    rw [mem_innerMergeTrackPff, mem_innerMergeTrackPlay, mem_innerMergeTrackPlay]
    constructor
    · rintro ⟨⟨⟨ht, p1, hp1, hk1⟩, p2, hp2, hk2⟩, q, hq, hk3⟩
      rw [List.mem_filter] at hp1 hp2 hq
      refine ⟨ht, ⟨p1, hp1.1, hp1.2, hk1⟩, ⟨p2, hp2.1, hp2.2, hk2⟩,
        ⟨q, hq.1, by simpa using hq.2, hk3⟩⟩
    · rintro ⟨ht, ⟨p1, hp1, hf1, hk1⟩, ⟨p2, hp2, hf2, hk2⟩, q, hq, hf3, hk3⟩
      exact ⟨⟨⟨ht, p1, List.mem_filter.mpr ⟨hp1, hf1⟩, hk1⟩,
        p2, List.mem_filter.mpr ⟨hp2, hf2⟩, hk2⟩,
        q, List.mem_filter.mpr ⟨hq, by simp [hf3]⟩, hk3⟩
  rw [hs3]
  rw [puntWindowTable_find?_eq]
  constructor
  · rintro ⟨h3, hcond⟩
    rcases h1 : eventFirstFrame track (r.gameId, r.playId) "punt" with _ | a
    · rw [h1] at hcond
      simp at hcond
    · rcases h2 : eventFirstFrame track (r.gameId, r.playId) en with _ | b
      · rw [h1, h2] at hcond
        simp at hcond
      · rw [h1, h2] at hcond
        simp at hcond
        exact ⟨h3.1, h3.2.1, h3.2.2.1, h3.2.2.2, a, b, rfl, rfl, hcond.1, hcond.2⟩
  · rintro ⟨ht, hc1, hc2, hc3, a, b, h1, h2, hab1, hab2⟩
    refine ⟨⟨ht, hc1, hc2, hc3⟩, ?_⟩
    rw [h1, h2]
    simp [hab1, hab2]

/-- Claim C1: with `play_end_event_name='punt_received'`,
`prep_get_modeling_frames` returns exactly the tracking rows that belong to
punt plays with `specialTeamsResult == 'Return'` and non-null
`kickReturnYardage`, with a single returner (the returnerId string contains no
semicolon), with a clean PFF catch (`kickContactType == 'CC'`), restricted to
the frames between the punt event and the punt_received event, keeping only
plays in which both events are present.  (Row multiplicity follows the pandas
merges; the returned rows are characterized here by membership.) -/
theorem prep_get_modeling_frames_punt_received_mem
    (track : List TrackRow) (play : List PlayRow) (pff : List PffRow)
    (r : TrackRow) (out : List TrackRow)
    (hok : prep_get_modeling_frames track play pff "punt_received" = .ok out) :
    r ∈ out ↔
      r ∈ track ∧
      (∃ p ∈ play, (p.specialTeamsPlayType = "Punt" ∧ p.specialTeamsResult = "Return" ∧
        p.kickReturnYardage.isSome = true) ∧ p.gameId = r.gameId ∧ p.playId = r.playId) ∧
      (∃ p ∈ play, singleReturner p = true ∧ p.gameId = r.gameId ∧ p.playId = r.playId) ∧
      (∃ q ∈ pff, q.kickContactType = "CC" ∧ q.gameId = r.gameId ∧ q.playId = r.playId) ∧
      (∃ a b, eventFirstFrame track (r.gameId, r.playId) "punt" = some a ∧
        eventFirstFrame track (r.gameId, r.playId) "punt_received" = some b ∧
        a ≤ r.frameId ∧ r.frameId ≤ b) := by
  rw [prep_get_modeling_frames] at hok
  rw [if_pos rfl] at hok
  injection hok with hout
  subst hout
  rw [mem_prepFrames]
  simp only [decide_eq_true_eq]

/-- Witness for claim C1 on the example play: the first tracking row of the
example data is in the output, hence satisfies all the filters. -/
theorem prep_get_modeling_frames_punt_received_mem_witness :
    exR ∈ exTrack ∧
      (∃ p ∈ exPlay, (p.specialTeamsPlayType = "Punt" ∧ p.specialTeamsResult = "Return" ∧
        p.kickReturnYardage.isSome = true) ∧ p.gameId = exR.gameId ∧ p.playId = exR.playId) ∧
      (∃ p ∈ exPlay, singleReturner p = true ∧ p.gameId = exR.gameId ∧ p.playId = exR.playId) ∧
      (∃ q ∈ exPff, q.kickContactType = "CC" ∧ q.gameId = exR.gameId ∧ q.playId = exR.playId) ∧
      (∃ a b, eventFirstFrame exTrack (exR.gameId, exR.playId) "punt" = some a ∧
        eventFirstFrame exTrack (exR.gameId, exR.playId) "punt_received" = some b ∧
        a ≤ exR.frameId ∧ exR.frameId ≤ b) :=
  (prep_get_modeling_frames_punt_received_mem exTrack exPlay exPff exR exTrack
    (by decide)).mp (by decide)

/-- Claim C7: `prep_get_modeling_frames` and `feat_timeToCatch` raise
ValueError exactly when their event-name argument is neither punt_received nor
fair_catch; the check precedes every transformation (in this pure embedding
the inputs are never mutated on either path) and no other input validation is
performed: on every valid name both functions return normally. -/
theorem argument_check_spec (track : List TrackRow) (play : List PlayRow)
    (pff : List PffRow) (name : String) :
    (¬ (name = "punt_received" ∨ name = "fair_catch") →
      prep_get_modeling_frames track play pff name =
        .error ("Invalid input for play_end_event_name in nfl_bdb22.prep_get_modeling_frames: expected punt_received or fair_catch. Input was " ++ name) ∧
      feat_timeToCatch track name =
        .error ("Invalid input for catch_type in nfl_bdb22.feat_timeToCatch: expected punt_received or fair_catch. Input was " ++ name)) ∧
    ((name = "punt_received" ∨ name = "fair_catch") →
      (∃ l, prep_get_modeling_frames track play pff name = .ok l) ∧
      (∃ l, feat_timeToCatch track name = .ok l)) := by
  constructor
  · intro h
    have h2 := not_or.mp h
    rw [prep_get_modeling_frames, if_neg h2.1, if_neg h2.2, feat_timeToCatch, if_neg h]
    exact ⟨rfl, rfl⟩
  · intro h
    rcases h with h | h
    · subst h
      exact ⟨⟨_, rfl⟩, ⟨_, rfl⟩⟩
    · subst h
      exact ⟨⟨_, rfl⟩, ⟨_, rfl⟩⟩

/-- Witness for claim C7 at the invalid event name "kickoff": both functions
return the ValueError. -/
theorem argument_check_spec_witness :
    prep_get_modeling_frames exTrack exPlay exPff "kickoff" =
      .error ("Invalid input for play_end_event_name in nfl_bdb22.prep_get_modeling_frames: expected punt_received or fair_catch. Input was " ++ "kickoff") ∧
    feat_timeToCatch exTrack "kickoff" =
      .error ("Invalid input for catch_type in nfl_bdb22.feat_timeToCatch: expected punt_received or fair_catch. Input was " ++ "kickoff") :=
  (argument_check_spec exTrack exPlay exPff "kickoff").1 (by decide)

theorem mem_filter_hangtime {track : List TrackRow} {thresh : ℚ} {k : Int × Int} :
    k ∈ (trackKeys track).filter (fun k =>
        match playMaxTTC track k with
        | some m => decide (m ≤ thresh)
        | none => false) ↔
      k ∈ trackKeys track ∧ ∃ m, playMaxTTC track k = some m ∧ m ≤ thresh := by
  rw [List.mem_filter]
  constructor
  · rintro ⟨hk, hc⟩
    rcases h : playMaxTTC track k with _ | m
    · rw [h] at hc
      simp at hc
    · rw [h] at hc
      simp only [decide_eq_true_eq] at hc
      exact ⟨hk, m, rfl, hc⟩
  · rintro ⟨hk, m, hm, hle⟩
    refine ⟨hk, ?_⟩
    rw [hm]
    simp [hle]

/-- Claim C6: `prep_remove_low_hangtime_punts` returns the tracking data with
exactly the rows of those plays removed whose maximum `timeToCatch` is at most
`hangtime_thresh`; when no play qualifies, the input DataFrame itself is
returned unchanged. -/
theorem prep_remove_low_hangtime_punts_spec (track : List TrackRow) (thresh : ℚ) :
    (∀ r, r ∈ prep_remove_low_hangtime_punts track thresh ↔
      (r ∈ track ∧ ¬ ∃ m, playMaxTTC track (trkKey r) = some m ∧ m ≤ thresh)) ∧
    ((∀ k ∈ trackKeys track,
        (match playMaxTTC track k with
          | some m => decide (m ≤ thresh)
          | none => false) = false) →
      prep_remove_low_hangtime_punts track thresh = track) := by
  constructor
  · intro r
    simp only [prep_remove_low_hangtime_punts]
    by_cases hP : ((trackKeys track).filter (fun k =>
        match playMaxTTC track k with
        | some m => decide (m ≤ thresh)
        | none => false)).length > 0
    · rw [if_pos hP, remove_abnormal_plays, List.mem_filter]
      constructor
      · rintro ⟨hr, hnot⟩
        simp only [decide_eq_true_eq] at hnot
        refine ⟨hr, ?_⟩
        rintro ⟨m, hm, hle⟩
        exact hnot (mem_filter_hangtime.mpr ⟨mem_trackKeys_of_mem hr, m, hm, hle⟩)
      · rintro ⟨hr, hn⟩
        refine ⟨hr, ?_⟩
        simp only [decide_eq_true_eq]
        intro hin
        obtain ⟨hk, m, hm, hle⟩ := mem_filter_hangtime.mp hin
        exact hn ⟨m, hm, hle⟩
    · rw [if_neg hP]
      constructor
      · intro hr
        refine ⟨hr, ?_⟩
        rintro ⟨m, hm, hle⟩
        exact hP (List.length_pos.mpr (List.ne_nil_of_mem
          (mem_filter_hangtime.mpr ⟨mem_trackKeys_of_mem hr, m, hm, hle⟩)))
      · exact fun h => h.1
  · intro hall
    simp only [prep_remove_low_hangtime_punts]
    have hnil : (trackKeys track).filter (fun k =>
        match playMaxTTC track k with
        | some m => decide (m ≤ thresh)
        | none => false) = [] := by
      rw [List.filter_eq_nil_iff]
      intro k hk
      rw [hall k hk]
      simp
    rw [hnil]
    simp

/-- Witness for claim C6: the example play without a punt_received event has a
NaN maximum timeToCatch, so no play qualifies and the input is returned
unchanged. -/
theorem prep_remove_low_hangtime_punts_spec_witness :
    prep_remove_low_hangtime_punts exTrackNC 100 = exTrackNC :=
  (prep_remove_low_hangtime_punts_spec exTrackNC 100).2 (by decide)

/-- Claim C5: on every single-returner tracking row, the lateral/downfield
velocity decomposition satisfies: `s_lateral = s * |cos(dir in degrees)|` is
nonnegative and at most `s` whenever `s >= 0`, `s_dwnfld = -s * sin(dir in
degrees)`, and `s_lateral^2 + s_dwnfld^2 = s^2`. -/
theorem returner_speed_decomposition (track : List TrackRow) (play : List PlayRow)
    (t : TrackRow) (ht : t ∈ returnerMergeRows track play) (hs : 0 ≤ t.s) :
    (⟨t.gameId, t.playId, t.frameId, (t.s : ℝ) * |Real.cos (deg2rad t.dir)|⟩ : LatRow) ∈
      feat_returnerLateralSpeed track play ∧
    (⟨t.gameId, t.playId, t.frameId, (t.s : ℝ) * -Real.sin (deg2rad t.dir)⟩ : DwnRow) ∈
      feat_returnerDownfieldSpeed track play ∧
    0 ≤ (t.s : ℝ) * |Real.cos (deg2rad t.dir)| ∧
    (t.s : ℝ) * |Real.cos (deg2rad t.dir)| ≤ (t.s : ℝ) ∧
    ((t.s : ℝ) * |Real.cos (deg2rad t.dir)|) ^ 2 +
        ((t.s : ℝ) * -Real.sin (deg2rad t.dir)) ^ 2 = (t.s : ℝ) ^ 2 := by
  have hs' : (0 : ℝ) ≤ (t.s : ℝ) := by exact_mod_cast hs
  refine ⟨List.mem_map.mpr ⟨t, ht, rfl⟩, List.mem_map.mpr ⟨t, ht, rfl⟩,
    mul_nonneg hs' (abs_nonneg _), ?_, ?_⟩
  · calc (t.s : ℝ) * |Real.cos (deg2rad t.dir)| ≤ (t.s : ℝ) * 1 :=
        mul_le_mul_of_nonneg_left (Real.abs_cos_le_one _) hs'
    _ = (t.s : ℝ) := mul_one _
  · have h1 : ((t.s : ℝ) * |Real.cos (deg2rad t.dir)|) ^ 2 =
        (t.s : ℝ) ^ 2 * Real.cos (deg2rad t.dir) ^ 2 := by
      rw [mul_pow, sq_abs]
    have h2 : ((t.s : ℝ) * -Real.sin (deg2rad t.dir)) ^ 2 =
        (t.s : ℝ) ^ 2 * Real.sin (deg2rad t.dir) ^ 2 := by
      rw [mul_pow, neg_sq]
    rw [h1, h2, ← mul_add, Real.cos_sq_add_sin_sq, mul_one]

/-- Witness for claim C5 on the returner row of the example frame. -/
theorem returner_speed_decomposition_witness :
    (⟨exRetT.gameId, exRetT.playId, exRetT.frameId,
        (exRetT.s : ℝ) * |Real.cos (deg2rad exRetT.dir)|⟩ : LatRow) ∈
      feat_returnerLateralSpeed exTrackB exPlay ∧
    (⟨exRetT.gameId, exRetT.playId, exRetT.frameId,
        (exRetT.s : ℝ) * -Real.sin (deg2rad exRetT.dir)⟩ : DwnRow) ∈
      feat_returnerDownfieldSpeed exTrackB exPlay ∧
    0 ≤ (exRetT.s : ℝ) * |Real.cos (deg2rad exRetT.dir)| ∧
    (exRetT.s : ℝ) * |Real.cos (deg2rad exRetT.dir)| ≤ (exRetT.s : ℝ) ∧
    ((exRetT.s : ℝ) * |Real.cos (deg2rad exRetT.dir)|) ^ 2 +
        ((exRetT.s : ℝ) * -Real.sin (deg2rad exRetT.dir)) ^ 2 = (exRetT.s : ℝ) ^ 2 :=
  returner_speed_decomposition exTrackB exPlay exRetT (by decide) (by decide)

/-! ### Lemmas and theorems for feat_byDefender -/

theorem byDef_punt_returner_src {track : List TrackRow} {play : List PlayRow}
    {game : List GameRow} {ct : String} {d : DRow}
    (hd : d ∈ byDef_punt track play game ct) :
    ∃ t ∈ track, ∃ p ∈ play, singleReturner p = true ∧
      floatKeyEq t.nflId (returnerIdFloat p) = true ∧
      t.gameId = d.gameId ∧ t.playId = d.playId ∧ t.frameId = d.frameId ∧
      t.x = d.x_returner ∧ t.y = d.y_returner := by
  obtain ⟨j, hj, rfl⟩ := List.mem_map.mp hd
  have hjg : j ∈ byDef_game track play game ct := (List.mem_filter.mp hj).1
  obtain ⟨j0, hj0, hm⟩ := List.mem_flatMap.mp hjg
  obtain ⟨g, hg, rfl⟩ := List.mem_map.mp hm
  obtain ⟨ret, hret, hm2⟩ := List.mem_flatMap.mp hj0
  obtain ⟨t2, ht2, rfl⟩ := List.mem_map.mp hm2
  obtain ⟨tr, htr, hm3⟩ := List.mem_flatMap.mp hret
  obtain ⟨p, hp, rfl⟩ := List.mem_map.mp hm3
  obtain ⟨t, ht, rfl⟩ := List.mem_map.mp htr
  have hp1 := List.mem_filter.mp hp
  have hp2 := List.mem_filter.mp hp1.1
  have hcond := hp1.2
  simp only [decide_eq_true_eq] at hcond
  exact ⟨t, ht, p, hp2.1, hp2.2, hcond.2.2, rfl, rfl, rfl, rfl, rfl⟩

/-- Claim C3: on every row kept after the opposing-team filter of
`feat_byDefender`, the `dist` column is the Euclidean distance between the
defender's position and the position of the play's single returner at the
same (gameId, playId, frameId). -/
theorem byDefender_dist_euclidean (track : List TrackRow) (play : List PlayRow)
    (game : List GameRow) (ct : String) (r : DistRow)
    (hr : r ∈ byDef_dist track play game ct) :
    r.dist = Real.sqrt (((r.x : ℝ) - (r.x_returner : ℝ)) ^ 2 +
      ((r.y : ℝ) - (r.y_returner : ℝ)) ^ 2) ∧
    ∃ t ∈ track, ∃ p ∈ play, singleReturner p = true ∧
      floatKeyEq t.nflId (returnerIdFloat p) = true ∧
      t.gameId = r.gameId ∧ t.playId = r.playId ∧ t.frameId = r.frameId ∧
      t.x = r.x_returner ∧ t.y = r.y_returner := by
  obtain ⟨d, hd, rfl⟩ := List.mem_map.mp hr
  exact ⟨rfl, byDef_punt_returner_src hd⟩

/-- Claim C4: on every row reaching the feature assignment, `timeToClose` is
`dist / max(s, 0.01)`; the divisor is at least 0.01 and in particular never
zero, so the (total) division is never a division by zero. -/
theorem byDefender_timeToClose_safe (track : List TrackRow) (play : List PlayRow)
    (game : List GameRow) (ct : String) (r : FeatRow)
    (hr : r ∈ byDef_feats track play game ct) :
    r.timeToClose = r.dist / max (r.s : ℝ) (1 / 100) ∧
    (1 / 100 : ℝ) ≤ max (r.s : ℝ) (1 / 100) ∧
    max (r.s : ℝ) (1 / 100) ≠ 0 := by
  obtain ⟨o, ho, rfl⟩ := List.mem_map.mp hr
  refine ⟨rfl, le_max_right _ _, ?_⟩
  have hpos : (0 : ℝ) < max (o.s : ℝ) (1 / 100) :=
    lt_of_lt_of_le (by norm_num) (le_max_right _ _)
  exact ne_of_gt hpos

theorem featAssign_willReach_eq (o : OrdRow) :
    (featAssign o).willReach = indWillReach (featAssign o) := by
  cases h : o.timeToCatch <;>
    simp [featAssign, willReachOf, indWillReach, timeToCloseOf, h]

theorem featAssign_reachWithin_eq (k : ℚ) (o : OrdRow) :
    (reachWithinOf k o) = indReachWithin k (featAssign o) := by
  cases h : o.timeToCatch <;> simp [reachWithinOf, indReachWithin, featAssign, h]

/-- Claim C2: in the output of `feat_byDefender`, the per-frame columns
willReach and reachWithin5/10/20/30 of each row are the sums of the
corresponding indicators over all punting-team defender rows of that
(gameId, playId, frameId) - the rows before the n_defenders/distOrder filter -
not only over the retained closest defenders. -/
theorem byDefender_counts_all_defenders (track : List TrackRow)
    (play : List PlayRow) (game : List GameRow) (n : Int) (ct : String)
    (out : List OutRow) (hok : feat_byDefender track play game n ct = .ok out)
    (r : OutRow) (hr : r ∈ out) :
    r.willReach =
      frameDefenderSum track play game ct r.gameId r.playId r.frameId indWillReach ∧
    r.reachWithin5 =
      frameDefenderSum track play game ct r.gameId r.playId r.frameId (indReachWithin 5) ∧
    r.reachWithin10 =
      frameDefenderSum track play game ct r.gameId r.playId r.frameId (indReachWithin 10) ∧
    r.reachWithin20 =
      frameDefenderSum track play game ct r.gameId r.playId r.frameId (indReachWithin 20) ∧
    r.reachWithin30 =
      frameDefenderSum track play game ct r.gameId r.playId r.frameId (indReachWithin 30) := by
  by_cases hv : ct = "punt_received" ∨ ct = "fair_catch"
  · rw [feat_byDefender, if_pos hv] at hok
    injection hok with hout
    subst hout
    obtain ⟨k, hk, rfl⟩ := List.mem_map.mp hr
    obtain ⟨a, ha, hka⟩ := List.mem_map.mp (List.mem_dedup.mp hk)
    have hasums : a ∈ byDef_sums track play game ct := (List.mem_filter.mp ha).1
    obtain ⟨b, hb, hab⟩ := List.mem_map.mp hasums
    subst hab
    subst hka
    have hsum : ∀ ind : FeatRow → ℤ, ∀ getv : FeatRow → ℤ,
        (∀ o : OrdRow, getv (featAssign o) = ind (featAssign o)) →
        groupSum (byDef_feats track play game ct) getv b.gameId b.playId b.frameId =
          frameDefenderSum track play game ct b.gameId b.playId b.frameId ind := by
      intro ind getv hgi
      unfold groupSum frameDefenderSum
      refine congrArg List.sum (List.map_congr_left ?_)
      intro d hd
      have hdf : d ∈ byDef_feats track play game ct := (List.mem_filter.mp hd).1
      obtain ⟨o, ho, rfl⟩ := List.mem_map.mp hdf
      exact hgi o
    refine ⟨?_, ?_, ?_, ?_, ?_⟩
    · exact hsum indWillReach (fun d => d.willReach) featAssign_willReach_eq
    · exact hsum (indReachWithin 5) (fun d => d.reachWithin5)
        (fun o => featAssign_reachWithin_eq 5 o)
    · exact hsum (indReachWithin 10) (fun d => d.reachWithin10)
        (fun o => featAssign_reachWithin_eq 10 o)
    · exact hsum (indReachWithin 20) (fun d => d.reachWithin20)
        (fun o => featAssign_reachWithin_eq 20 o)
    · exact hsum (indReachWithin 30) (fun d => d.reachWithin30)
        (fun o => featAssign_reachWithin_eq 30 o)
  · rw [feat_byDefender, if_neg hv] at hok
    exact absurd hok (by simp)

/-! ### Evaluation of the byDefender pipeline on the example frame -/

theorem exD_punt_eval :
    byDef_punt exTrackD exPlay exGame "punt_received" = [exDRow] := by decide

theorem exD_dist_eval :
    byDef_dist exTrackD exPlay exGame "punt_received" = [exDistRow] := by
  unfold byDef_dist
  rw [exD_punt_eval]
  rfl

theorem exD_sorted_eval :
    byDef_sorted exTrackD exPlay exGame "punt_received" = [exDistRow] := by
  unfold byDef_sorted
  rw [exD_dist_eval, List.mergeSort_singleton]

theorem exD_ord_eval :
    byDef_ord exTrackD exPlay exGame "punt_received" = [exOrd] := by
  unfold byDef_ord
  rw [exD_sorted_eval]
  rfl

theorem exD_feats_eval :
    byDef_feats exTrackD exPlay exGame "punt_received" = [exFeat] := by
  unfold byDef_feats
  rw [exD_ord_eval]
  rfl

theorem exD_sums_eval :
    byDef_sums exTrackD exPlay exGame "punt_received" = [exSum] := by
  unfold byDef_sums
  rw [exD_feats_eval]
  rfl

theorem exD_top_eval :
    byDef_top exTrackD exPlay exGame "punt_received" 1 = [exSum] := by
  unfold byDef_top
  rw [exD_sums_eval]
  rfl

theorem exD_byDefender_eval :
    feat_byDefender exTrackD exPlay exGame 1 "punt_received" = .ok [exOut] := by
  unfold feat_byDefender
  rw [if_pos (Or.inl rfl), exD_top_eval]
  rfl

/-- Witness for claim C3 on the example defender row. -/
theorem byDefender_dist_euclidean_witness :
    exDistRow.dist = Real.sqrt (((exDistRow.x : ℝ) - (exDistRow.x_returner : ℝ)) ^ 2 +
      ((exDistRow.y : ℝ) - (exDistRow.y_returner : ℝ)) ^ 2) ∧
    ∃ t ∈ exTrackD, ∃ p ∈ exPlay, singleReturner p = true ∧
      floatKeyEq t.nflId (returnerIdFloat p) = true ∧
      t.gameId = exDistRow.gameId ∧ t.playId = exDistRow.playId ∧
      t.frameId = exDistRow.frameId ∧
      t.x = exDistRow.x_returner ∧ t.y = exDistRow.y_returner :=
  byDefender_dist_euclidean exTrackD exPlay exGame "punt_received" exDistRow
    (by rw [exD_dist_eval]; exact List.mem_singleton.mpr rfl)

/-- Witness for claim C4 on the example defender row. -/
theorem byDefender_timeToClose_safe_witness :
    exFeat.timeToClose = exFeat.dist / max (exFeat.s : ℝ) (1 / 100) ∧
    (1 / 100 : ℝ) ≤ max (exFeat.s : ℝ) (1 / 100) ∧
    max (exFeat.s : ℝ) (1 / 100) ≠ 0 :=
  byDefender_timeToClose_safe exTrackD exPlay exGame "punt_received" exFeat
    (by rw [exD_feats_eval]; exact List.mem_singleton.mpr rfl)

/-- Witness for claim C2 on the example output row. -/
theorem byDefender_counts_all_defenders_witness :
    exOut.willReach = frameDefenderSum exTrackD exPlay exGame "punt_received"
        exOut.gameId exOut.playId exOut.frameId indWillReach ∧
    exOut.reachWithin5 = frameDefenderSum exTrackD exPlay exGame "punt_received"
        exOut.gameId exOut.playId exOut.frameId (indReachWithin 5) ∧
    exOut.reachWithin10 = frameDefenderSum exTrackD exPlay exGame "punt_received"
        exOut.gameId exOut.playId exOut.frameId (indReachWithin 10) ∧
    exOut.reachWithin20 = frameDefenderSum exTrackD exPlay exGame "punt_received"
        exOut.gameId exOut.playId exOut.frameId (indReachWithin 20) ∧
    exOut.reachWithin30 = frameDefenderSum exTrackD exPlay exGame "punt_received"
        exOut.gameId exOut.playId exOut.frameId (indReachWithin 30) :=
  byDefender_counts_all_defenders exTrackD exPlay exGame 1 "punt_received"
    [exOut] exD_byDefender_eval exOut (List.mem_singleton.mpr rfl)

/-! ### Theorems for claim C8 -/

theorem foldl_set_enumFrom_shift {β : Type} (g : PRow → β) (ps : List PRow) :
    ∀ (k : ℕ) (a : β) (acc : List β),
      (ps.enumFrom (k + 1)).foldl (fun acc2 ip => acc2.set ip.1 (g ip.2)) (a :: acc) =
        a :: (ps.enumFrom k).foldl (fun acc2 ip => acc2.set ip.1 (g ip.2)) acc := by
  induction ps with
  | nil => intro k a acc; rfl
  | cons q qs ih =>
    intro k a acc
    simp only [List.enumFrom_cons, List.foldl_cons, List.set_cons_succ]
    exact ih (k + 1) a (acc.set k (g q))

theorem setByIndex_eq {β : Type} (mk : PRow → β) :
    ∀ (players : List PRow) (old : List β), players.length ≤ old.length →
      setByIndex old players mk = players.map mk ++ old.drop players.length := by
  intro players
  induction players with
  | nil => intro old h; simp [setByIndex]
  | cons p ps ih =>
    intro old h
    cases old with
    | nil => simp at h
    | cons o os =>
      have hlen : ps.length ≤ os.length := by
        simpa using h
      simp only [setByIndex, List.enum, List.enumFrom_cons, List.foldl_cons,
        List.set_cons_zero]
      rw [foldl_set_enumFrom_shift mk ps 0 (mk p) os]
      have ihos := ih os hlen
      simp only [setByIndex, List.enum] at ihos
      rw [ihos]
      simp

/-- Counterexample to claim C8 as stated: at an animation frame whose rows do
not contain the home team label, `update` leaves the home scatter offsets
stale instead of setting them from the (empty) set of home rows with
`frameId == anim_frame`. -/
theorem playAnimation_update_stale_counterexample :
    ¬ ((paCE.update 1).scatHomeOffsets =
      (paCE.frameData.filter (fun r => r.frameId = 1 ∧ r.team = "home")).map
        (fun r => (r.x, r.y))) := by decide

/-- Claim C8 (amended): `PlayAnimation.update` mutates only the plot
primitives created at construction; it sets the scatter offsets of each team
label present among the rows with `frameId == anim_frame` from exactly those
rows (absent labels keep their previous offsets), sets the first k per-player
position/number/name text objects and track lines from the k player rows of
that frame - each track line from that player's x,y history over the rows
with `frameId <= anim_frame` - leaving the remaining objects unchanged, and
creates no new plot objects and modifies no other state of the object. -/
theorem PlayAnimation.update_spec (pa : PlayAnimation) (f : Int)
    (h1 : (playersOf pa f).length ≤ pa.scatPositionList.length)
    (h2 : (playersOf pa f).length ≤ pa.scatNumberList.length)
    (h3 : (playersOf pa f).length ≤ pa.scatNameList.length)
    (h4 : (playersOf pa f).length ≤ pa.plotTrackList.length) :
    updateFrameEffect pa f := by
  have e1 := setByIndex_eq (mkPositionText pa) (playersOf pa f) pa.scatPositionList h1
  have e2 := setByIndex_eq (mkNumberText pa) (playersOf pa f) pa.scatNumberList h2
  have e3 := setByIndex_eq (mkNameText pa) (playersOf pa f) pa.scatNameList h3
  have e4 := setByIndex_eq (mkTrackLine pa (histRowsOf pa f)) (playersOf pa f)
    pa.plotTrackList h4
  refine ⟨rfl, rfl, rfl, rfl, rfl, rfl, rfl, rfl, rfl,
    ?_, ?_, ?_, ?_, ?_, ?_, ?_, ?_, ?_, ?_, ?_, ?_, ?_, ?_⟩
  · intro hm
    simp only [PlayAnimation.update]
    rw [if_pos hm]
  · intro hm
    simp only [PlayAnimation.update]
    rw [if_neg hm]
  · intro hm
    simp only [PlayAnimation.update]
    rw [if_pos hm]
  · intro hm
    simp only [PlayAnimation.update]
    rw [if_neg hm]
  · intro hm
    simp only [PlayAnimation.update]
    rw [if_pos hm]
  · intro hm
    simp only [PlayAnimation.update]
    rw [if_neg hm]
  · exact e1
  · exact e2
  · exact e3
  · exact e4
  · rw [show (pa.update f).scatPositionList = _ from e1]
    simp only [List.length_append, List.length_map, List.length_drop]
    exact Nat.add_sub_cancel' h1
  · rw [show (pa.update f).scatNumberList = _ from e2]
    simp only [List.length_append, List.length_map, List.length_drop]
    exact Nat.add_sub_cancel' h2
  · rw [show (pa.update f).scatNameList = _ from e3]
    simp only [List.length_append, List.length_map, List.length_drop]
    exact Nat.add_sub_cancel' h3
  · rw [show (pa.update f).plotTrackList = _ from e4]
    simp only [List.length_append, List.length_map, List.length_drop]
    exact Nat.add_sub_cancel' h4

/-- Witness for the amended claim C8 on a one-player frame. -/
theorem PlayAnimation.update_spec_witness : updateFrameEffect paW 1 :=
  PlayAnimation.update_spec paW 1 (by decide) (by decide) (by decide) (by decide)

/-- Witness for claim C9 at a concrete left-directed row: the inplace=False
call leaves the input unchanged. -/
theorem transform_tracking_data_spec_witness :
    (transform_tracking_data [⟨1, 2, 90, 45, "left", (0 : ℤ)⟩] false).2 =
      [⟨1, 2, 90, 45, "left", (0 : ℤ)⟩] :=
  (transform_tracking_data_spec [⟨1, 2, 90, 45, "left", (0 : ℤ)⟩]).1
